import Mathlib

/-!
Shallow embedding of the `asltk` voxel-wise parametric model-fitting engine:
the acquisition descriptor (`asltk/asldata.py`), the mask gate
(`asltk/aux_methods.py` together with `CBFMapping.set_brain_mask`), the
CBF/ATT voxel-fit scheduler (`asltk/reconstruction/cbf_mapping.py`) and the
multi-TE exchange mapping orchestration
(`asltk/reconstruction/multi_te_mapping.py`, plus the legacy flat module
`asltk/reconstruction.py`).

Images are modelled as flat row-major value lists with an explicit shape;
masks and fits are modelled as functions over voxel coordinates; fallible
Python code is modelled with `Except`.
-/

namespace Asltk

/-! ### Acquisition descriptor: `asltk/asldata.py` -/

/-- State of an `ASLData` object: LD/PLD arrays, the optional TE array and
whether an M0 image is attached (`_m0_image is not None`). -/
structure ASLState where
  ld : List ℚ
  pld : List ℚ
  te : Option (List ℚ)
  hasM0 : Bool
  deriving Repr, DecidableEq

/-- `ASLData._check_ld_pld_sizes`: raises a `ValueError` naming both lengths
when the LD and PLD arrays differ in size. -/
def checkLdPldSizes (ld pld : List ℚ) : Except String Unit :=
  if ld.length ≠ pld.length then
    .error ("LD and PLD must have the same array size. LD size is "
      ++ toString ld.length ++ " and PLD size is " ++ toString pld.length)
  else .ok ()

/-- `ASLData._check_input_parameter`: every value must be strictly positive
(the numeric-type test is inherent to the `List ℚ` representation). -/
def checkInputParameter (values : List ℚ) (paramType : String) : Except String Unit :=
  if values.all (fun v => decide (0 < v)) then .ok ()
  else .error (paramType ++ " values must be postive non zero numbers.")

/-- `ASLData.__init__`: stores LD/PLD (defaulting to `[]`), checks the
LD/PLD sizes, and stores TE only when the `te_values` argument is truthy
(so `None` and the empty list both leave TE as `None`).  The constructor
does not run `_check_input_parameter`. -/
def aslDataInit (ld pld : Option (List ℚ)) (te : Option (List ℚ))
    (hasM0 : Bool) : Except String ASLState := do
  let ldv := ld.getD []
  let pldv := pld.getD []
  checkLdPldSizes ldv pldv
  let tev := match te with
    | some l => if l.isEmpty then none else some l
    | none => none
  pure ⟨ldv, pldv, tev, hasM0⟩

/-- `ASLData.set_ld`: validates positivity of the new values (only) and
stores them; the LD/PLD size invariant is not re-checked. -/
def setLd (s : ASLState) (values : List ℚ) : Except String ASLState := do
  checkInputParameter values "LD"
  pure { s with ld := values }

/-- `ASLData.set_pld`: validates positivity of the new values (only) and
stores them; the LD/PLD size invariant is not re-checked. -/
def setPld (s : ASLState) (values : List ℚ) : Except String ASLState := do
  checkInputParameter values "PLD"
  pure { s with pld := values }

/-- `ASLData.get_te`. -/
def getTe (s : ASLState) : Option (List ℚ) := s.te

/-! ### Mask gate: `asltk/aux_methods.py` and `CBFMapping.set_brain_mask` -/

/-- A dense image: a shape together with the row-major flat list of voxel
values (`numpy` array as seen through `shape`, `unique`, `==`, `*`). -/
structure Img where
  shape : List ℕ
  data : List ℤ
  deriving Repr, DecidableEq

/-- `_check_mask_values(mask, label, ref_shape)`: warns (returned boolean)
when the mask has more than two distinct values, then fails when the label
is absent from the mask values, then fails when the mask shape differs from
the reference shape.  The returned `Bool` records whether the non-binary
warning was issued. -/
def checkMaskValues (mask : Img) (label : ℤ) (refShape : List ℕ) :
    Except String Bool :=
  let warn := decide (2 < mask.data.dedup.length)
  if label ∈ mask.data then
    if mask.shape = refShape then .ok warn
    else .error ("Image mask dimension does not match with input 3D volume. Mask shape "
      ++ toString mask.shape ++ " not equal to " ++ toString refShape)
  else .error "Label value is not found in the mask provided."

/-- `CBFMapping.set_brain_mask`: after `_check_mask_values` succeeds, stores
`(brain_mask == label).astype(np.uint8) * label` (elementwise: `label` where
the voxel equals `label`, `0` elsewhere).  The result pairs the stored mask
with the warning flag. -/
def setBrainMask (mask : Img) (label : ℤ) (refShape : List ℕ) :
    Except String (Img × Bool) := do
  let warn ← checkMaskValues mask label refShape
  pure (⟨mask.shape, mask.data.map (fun v => if v = label then label else 0)⟩, warn)

/-! ### Worker-count validation: `CBFMapping.create_map`, lines 234-242 -/

/-- A Python number as passed for the `cores` argument: either an `int` or
a `float` (for which `isinstance(cores, int)` is false). -/
inductive PyNum where
  | int (n : ℤ)
  | float (q : ℚ)
  deriving Repr, DecidableEq

/-- Value of a `PyNum` for order comparisons. -/
def PyNum.val : PyNum → ℚ
  | .int n => (n : ℚ)
  | .float q => q

/-- `isinstance(cores, int)`. -/
def PyNum.isInt : PyNum → Bool
  | .int _ => true
  | .float _ => false

/-- The validation prologue of `CBFMapping.create_map`:
`if (cores < 0) or (cores > cpu_count()) or not isinstance(cores, int)`
raises the worker-count error, then empty LD or PLD raises the timing
error; otherwise the parallel work is dispatched. -/
def cbfValidate (cores : PyNum) (cpuCount : ℤ) (ld pld : List ℚ) :
    Except String Unit :=
  if cores.val < 0 ∨ (cpuCount : ℚ) < cores.val ∨ ¬ cores.isInt then
    .error "Number of proecess must be at least 1 and less than maximum cores availble."
  else if ld.length = 0 ∨ pld.length = 0 then
    .error "LD or PLD list of values must be provided."
  else .ok ()

/-- `multiprocessing.pool.Pool.__init__` as consumed at
`Pool(processes=cores, ...)`: `processes < 1` raises
`ValueError("Number of processes must be at least 1")` before any worker
is spawned; a non-integer count that passes this check then raises
`TypeError` at the `range(processes - len(pool))` of the worker-spawn
loop, still before any worker starts. -/
def poolInit (processes : PyNum) : Except String Unit :=
  if processes.val < 1 then
    .error "Number of processes must be at least 1"
  else if ¬processes.isInt then
    .error "TypeError: 'float' object cannot be interpreted as an integer"
  else .ok ()

/-- The full worker-count path of `CBFMapping.create_map`: the validation
prologue (lines 234-242) followed by the `Pool(processes=cores, ...)`
construction (line 260). -/
def cbfCoresPath (cores : PyNum) (cpuCount : ℤ) (ld pld : List ℚ) :
    Except String Unit := do
  cbfValidate cores cpuCount ld pld
  poolInit cores

/-- The full worker-count path of `MultiTE_ASLMapping.create_map`: there
is no prologue validation of `cores` anywhere in lines 176-297, so the
count reaches `Pool(processes=cores, ...)` (line 297) directly. -/
def mteCoresPath (cores : PyNum) : Except String Unit :=
  poolInit cores

/-! ### Multi-TE exchange mapping orchestration:
`asltk/reconstruction/multi_te_mapping.py` and the legacy flat module
`asltk/reconstruction.py` -/

/-- `np.mean` over a flattened map. -/
def npMean (l : List ℚ) : ℚ := l.sum / l.length

/-- `np.int8` applied to a real scalar: truncation toward zero followed by
wrap-around into the signed 8-bit range. -/
def npInt8 (q : ℚ) : ℤ := (Int.tdiv q.num (q.den : ℤ) + 128) % 256 - 128

/-- The package-module trigger for "CBF/ATT maps were not provided"
(`multi_te_mapping.py`, line 271): `np.mean(cbf) == 0 or np.mean(att) == 0`. -/
def pkgMapsMissing (cbf att : List ℚ) : Bool :=
  decide (npMean cbf = 0) || decide (npMean att = 0)

/-- The legacy flat-module trigger (`reconstruction.py`, lines 355-358):
`np.int8(np.mean(cbf)) == np.int8(0) or np.int8(np.mean(att)) == np.int8(0)`. -/
def flatMapsMissing (cbf att : List ℚ) : Bool :=
  decide (npInt8 (npMean cbf) = 0) || decide (npInt8 (npMean att) = 0)

/-- State of a `MultiTE_ASLMapping` object relevant to `create_map`:
the brain mask and the (possibly externally supplied) CBF and ATT maps. -/
structure MTEState where
  mask : Img
  cbf : List ℚ
  att : List ℚ
  deriving Repr, DecidableEq

/-- Result of the fixed-input stage of `MultiTE_ASLMapping.create_map`:
the CBF/ATT maps actually used, and whether the internal `CBFMapping`
computation was run. -/
structure MTEStage where
  cbf : List ℚ
  att : List ℚ
  ranInternal : Bool
  deriving Repr, DecidableEq

/-- The fixed-input stage of `MultiTE_ASLMapping.create_map` (lines
268-278): the internal `CBFMapping` is given this instance's brain mask;
then, when either supplied map has mean exactly zero, the internal
`create_map` is run and both maps are replaced by its output; otherwise the
supplied maps are kept.  `basicRun` abstracts `CBFMapping.create_map` as a
function of the brain mask, returning the `'cbf'` and `'att'` outputs. -/
def mteFixedInputStage (basicRun : Img → List ℚ × List ℚ) (s : MTEState) :
    MTEStage :=
  if npMean s.cbf = 0 ∨ npMean s.att = 0 then
    let computed := basicRun s.mask
    ⟨computed.1, computed.2, true⟩
  else ⟨s.cbf, s.att, false⟩

/-- `MultiTE_ASLMapping._adjust_image_limits`: a SimpleITK
`ThresholdImageFilter` with `Lower = 0`, `Upper = 4 * init_guess` and the
default outside value `0`: voxels outside `[0, 4*init_guess]` are set to
`0`, voxels inside are kept. -/
def adjustImageLimits (map : List ℚ) (initGuess : ℚ) : List ℚ :=
  map.map (fun v => if v < 0 ∨ 4 * initGuess < v then 0 else v)

/-- `CBFMapping.__init__`: raises when the ASL data has no M0 image. -/
def cbfInit (s : ASLState) : Except String Unit :=
  if s.hasM0 then .ok ()
  else .error "ASLData is incomplete. CBFMapping need pcasl and m0 images."

/-- `MultiTE_ASLMapping.__init__`: first constructs the internal
`CBFMapping` (which needs M0), then raises when the ASL data has no TE
values. -/
def multiTEInit (s : ASLState) : Except String Unit := do
  cbfInit s
  if s.te = none then
    .error "ASLData is incomplete. MultiTE_ASLMapping need a list of TE values."
  else .ok ()

/-! ### Voxel-fit scheduler: `CBFMapping.create_map` lines 257-298 and
`_cbf_process_slice` lines 312-339 -/

/-- The pair of flat shared output buffers of `CBFMapping.create_map`
(`Array('d', z*y*x)` for CBF and for ATT; the two are always written
together at the same index), read by linear index. -/
def Buf : Type := ℕ → ℚ × ℚ

/-- The buffers as zero-initialised by `Array('d', ...)`. -/
def zeroBuf : Buf := fun _ => (0, 0)

/-- The row-major linear index `k*(y_axis*x_axis) + j*x_axis + i` of voxel
`(k, j, i)` (line 329). -/
def linIndex (y x k j i : ℕ) : ℕ := k * (y * x) + j * x + i

/-- Write one `(cbf, att)` pair at a linear index of the shared buffers. -/
def writeBuf (b : Buf) (n : ℕ) (v : ℚ × ℚ) : Buf :=
  fun m => if m = n then v else b m

section Scheduler

variable (z y x : ℕ) (mask : ℕ → ℕ → ℕ → ℤ)
variable (fit : ℕ → ℕ → ℕ → Option (ℚ × ℚ))

/-- Value a masked voxel receives: the `curve_fit` parameters on
convergence, the fallback sentinel `(0, 0)` when the solver raises
`RuntimeError` (the `try`/`except` of lines 331-339). -/
def fitOutcome (k j i : ℕ) : ℚ × ℚ :=
  match fit k j i with
  | some p => p
  | none => (0, 0)

/-- Body of the inner `k` loop of `_cbf_process_slice`: a voxel with
nonzero mask value gets its fit outcome written at its linear index; a
zero-mask voxel is skipped. -/
def processVoxel (b : Buf) (k j i : ℕ) : Buf :=
  if mask k j i ≠ 0 then
    writeBuf b (linIndex y x k j i) (fitOutcome fit k j i)
  else b

/-- `_cbf_process_slice(i, ...)`: `for j in range(y_axis): for k in
range(z_axis): ...` over the shared buffers. -/
def processSlice (b : Buf) (i : ℕ) : Buf :=
  (List.range y).foldl
    (fun bj j =>
      (List.range z).foldl (fun bk k => processVoxel y x mask fit bk k j i) bj)
    b

/-- Execute the slice tasks in the order `ord`. -/
def runSlices (ord : List ℕ) (b : Buf) : Buf :=
  ord.foldl (processSlice z y x mask fit) b

/-- The scheduler run of `CBFMapping.create_map`: the shared buffers start
zero-initialised and the per-slice tasks execute in some serialisation
`ord` of the dispatched tasks `i = 0 .. x_axis - 1` (one task per
outer-axis index; a single worker executes them as `List.range x`). -/
def schedulerRun (ord : List ℕ) : Buf :=
  runSlices z y x mask fit ord zeroBuf

/-- `np.frombuffer(...).reshape(z_axis, y_axis, x_axis)` read at voxel
`(k, j, i)`. -/
def reshaped (b : Buf) (k j i : ℕ) : ℚ × ℚ := b (linIndex y x k j i)

/-- The write (if any) a single voxel contributes to the shared buffers. -/
def voxelWrites (k j i : ℕ) : List (ℕ × (ℚ × ℚ)) :=
  if mask k j i ≠ 0 then [(linIndex y x k j i, fitOutcome fit k j i)] else []

/-- The sequence of writes performed by the slice task `i`. -/
def sliceTrace (i : ℕ) : List (ℕ × (ℚ × ℚ)) :=
  (List.range y).flatMap fun j =>
    (List.range z).flatMap fun k => voxelWrites y x mask fit k j i

/-- The sequence of writes performed by a whole run with task order
`ord`. -/
def runTrace (ord : List ℕ) : List (ℕ × (ℚ × ℚ)) :=
  ord.flatMap (sliceTrace z y x mask fit)

/-- `CBFMapping.create_map` seen from the caller: the validation prologue
may raise a configuration error; once the parallel work is dispatched the
call always returns the completed buffers (the per-voxel `try`/`except`
recovers every solver failure locally). -/
def cbfCreateMap (cores : PyNum) (cpuCount : ℤ) (ld pld : List ℚ) :
    Except String Buf := do
  cbfValidate cores cpuCount ld pld
  pure (schedulerRun z y x mask fit (List.range x))

end Scheduler

/-! ### Concrete inputs used by the witness instantiations -/

/-- A concrete 2x2x2 mask: voxels with `j = 0` are foreground. -/
def wMask : ℕ → ℕ → ℕ → ℤ := fun _ j _ => if j = 0 then 1 else 0

/-- A concrete fit oracle: voxels with `k = 0` converge, the rest raise
`RuntimeError`. -/
def wFit : ℕ → ℕ → ℕ → Option (ℚ × ℚ) := fun k _ i =>
  if k = 0 then some ((i : ℚ) + 1, 2) else none

/-- A concrete stand-in for the internal `CBFMapping.create_map` output. -/
def wBasicRun : Img → List ℚ × List ℚ := fun _ => ([1, 3], [2, 2])

/-! ### Scheduler lemmas -/

theorem mul_add_lt_inj {m a b c d : ℕ} (hb : b < m) (hd : d < m)
    (h : a * m + b = c * m + d) : a = c ∧ b = d := by
  have hac : a = c := by
    rcases Nat.lt_trichotomy a c with hlt | heq | hgt
    · have h1 : (a + 1) * m ≤ c * m :=
        mul_le_mul_right' (Nat.succ_le_of_lt hlt) m
      have h2 : a * m + m ≤ c * m := by linarith [h1]
      omega
    · exact heq
    · have h1 : (c + 1) * m ≤ a * m :=
        mul_le_mul_right' (Nat.succ_le_of_lt hgt) m
      have h2 : c * m + m ≤ a * m := by linarith [h1]
      omega
  subst hac
  omega

theorem linIndex_eq (y x k j i : ℕ) :
    linIndex y x k j i = (k * y + j) * x + i := by
  unfold linIndex; ring

theorem linIndex_inj {y x k j i K J I : ℕ} (hj : j < y) (hi : i < x)
    (hJ : J < y) (hI : I < x)
    (h : linIndex y x k j i = linIndex y x K J I) :
    k = K ∧ j = J ∧ i = I := by
  rw [linIndex_eq, linIndex_eq] at h
  obtain ⟨h1, h2⟩ := mul_add_lt_inj hi hI h
  obtain ⟨h3, h4⟩ := mul_add_lt_inj hj hJ h1
  exact ⟨h3, h4, h2⟩

theorem linIndex_lt {z y x k j i : ℕ} (hk : k < z) (hj : j < y)
    (hi : i < x) : linIndex y x k j i < z * y * x := by
  rw [linIndex_eq]
  have h1 : k * y + j + 1 ≤ z * y := by
    have h0 : k + 1 ≤ z := hk
    have h1 := mul_le_mul_right' h0 y
    have h2 : (k + 1) * y = k * y + y := by ring
    omega
  have h3 : (k * y + j + 1) * x ≤ z * y * x := mul_le_mul_right' h1 x
  have h4 : (k * y + j + 1) * x = (k * y + j) * x + x := by ring
  omega

theorem writeBuf_self (b : Buf) (n : ℕ) (v : ℚ × ℚ) : writeBuf b n v n = v := by
  simp [writeBuf]

theorem writeBuf_ne (b : Buf) (n : ℕ) (v : ℚ × ℚ) {m : ℕ} (h : m ≠ n) :
    writeBuf b n v m = b m := by
  simp [writeBuf, h]

section SchedulerProofs

variable {z y x : ℕ} {mask : ℕ → ℕ → ℕ → ℤ}
variable {fit : ℕ → ℕ → ℕ → Option (ℚ × ℚ)}
variable {K J I : ℕ}

theorem processVoxel_read (hJ : J < y) (hI : I < x) {k j i : ℕ}
    (hj : j < y) (hi : i < x) (b : Buf) :
    processVoxel y x mask fit b k j i (linIndex y x K J I) =
      if (j = J ∧ i = I ∧ mask K J I ≠ 0) ∧ k = K then fitOutcome fit K J I
      else b (linIndex y x K J I) := by
  unfold processVoxel
  by_cases hm : mask k j i = 0
  · have hC : ¬((j = J ∧ i = I ∧ mask K J I ≠ 0) ∧ k = K) := by
      rintro ⟨⟨h1, h2, h3⟩, h4⟩
      subst h1; subst h2; subst h4
      exact h3 hm
    simp [hm, hC]
  · rw [if_pos hm]
    by_cases heq : linIndex y x k j i = linIndex y x K J I
    · obtain ⟨e1, e2, e3⟩ := linIndex_inj hj hi hJ hI heq
      subst e1; subst e2; subst e3
      rw [writeBuf_self]
      simp [hm]
    · rw [writeBuf_ne _ _ _ (Ne.symm heq)]
      have hC : ¬((j = J ∧ i = I ∧ mask K J I ≠ 0) ∧ k = K) := by
        rintro ⟨⟨h1, h2, _⟩, h4⟩
        subst h1; subst h2; subst h4
        exact heq rfl
      simp [hC]

theorem foldK_read (hJ : J < y) (hI : I < x) {j i : ℕ}
    (hj : j < y) (hi : i < x) :
    ∀ (ks : List ℕ) (b : Buf),
      (ks.foldl (fun bk k => processVoxel y x mask fit bk k j i) b)
          (linIndex y x K J I) =
        if (j = J ∧ i = I ∧ mask K J I ≠ 0) ∧ K ∈ ks then fitOutcome fit K J I
        else b (linIndex y x K J I) := by
  intro ks
  induction ks with
  | nil => intro b; simp
  | cons c ks ih =>
    intro b
    rw [List.foldl_cons, ih, processVoxel_read hJ hI hj hi]
    by_cases hP : j = J ∧ i = I ∧ mask K J I ≠ 0
    · by_cases hc : K ∈ ks
      · simp [hP, hc, List.mem_cons]
      · by_cases hck : c = K
        · simp [hP, hc, hck, List.mem_cons]
        · have hck2 : ¬K = c := fun h => hck h.symm
          simp [hP, hc, hck, hck2, List.mem_cons]
    · simp [hP]

theorem foldJ_read (hK : K < z) (hJ : J < y) (hI : I < x) {i : ℕ}
    (hi : i < x) :
    ∀ (js : List ℕ), (∀ j ∈ js, j < y) → ∀ (b : Buf),
      (js.foldl
          (fun bj j =>
            (List.range z).foldl
              (fun bk k => processVoxel y x mask fit bk k j i) bj) b)
          (linIndex y x K J I) =
        if (i = I ∧ mask K J I ≠ 0) ∧ J ∈ js then fitOutcome fit K J I
        else b (linIndex y x K J I) := by
  intro js
  induction js with
  | nil => intro _ b; simp
  | cons c js ih =>
    intro hjs b
    rw [List.foldl_cons, ih (fun j hj => hjs j (List.mem_cons_of_mem c hj)),
      foldK_read hJ hI (hjs c (List.mem_cons_self c js)) hi]
    have hKz : K ∈ List.range z := List.mem_range.mpr hK
    by_cases hP : i = I ∧ mask K J I ≠ 0
    · by_cases hc : J ∈ js
      · simp [hP, hc, List.mem_cons]
      · by_cases hcj : c = J
        · simp [hP, hc, hcj, hKz, List.mem_cons]
        · have hcj2 : ¬J = c := fun h => hcj h.symm
          simp [hP, hc, hcj, hcj2, hKz, List.mem_cons]
    · have hC1 : ¬((c = J ∧ i = I ∧ mask K J I ≠ 0) ∧ K ∈ List.range z) := by
        rintro ⟨⟨_, h2, h3⟩, _⟩
        exact hP ⟨h2, h3⟩
      simp [hP, hC1]

theorem processSlice_read (hK : K < z) (hJ : J < y) (hI : I < x) {i : ℕ}
    (hi : i < x) (b : Buf) :
    processSlice z y x mask fit b i (linIndex y x K J I) =
      if i = I ∧ mask K J I ≠ 0 then fitOutcome fit K J I
      else b (linIndex y x K J I) := by
  unfold processSlice
  rw [foldJ_read hK hJ hI hi (List.range y) (fun j hj => List.mem_range.mp hj) b]
  have hJy : J ∈ List.range y := List.mem_range.mpr hJ
  simp [hJy]

theorem runSlices_read (hK : K < z) (hJ : J < y) (hI : I < x) :
    ∀ (ord : List ℕ), (∀ a ∈ ord, a < x) → ∀ (b : Buf),
      runSlices z y x mask fit ord b (linIndex y x K J I) =
        if mask K J I ≠ 0 ∧ I ∈ ord then fitOutcome fit K J I
        else b (linIndex y x K J I) := by
  intro ord
  induction ord with
  | nil => intro _ b; simp [runSlices]
  | cons c ord ih =>
    intro hord b
    show runSlices z y x mask fit ord (processSlice z y x mask fit b c)
        (linIndex y x K J I) = _
    rw [ih (fun a ha => hord a (List.mem_cons_of_mem c ha)),
      processSlice_read hK hJ hI (hord c (List.mem_cons_self c ord))]
    by_cases hP : mask K J I ≠ 0
    · by_cases hc : I ∈ ord
      · simp [hP, hc, List.mem_cons]
      · by_cases hci : c = I
        · simp [hP, hc, hci, List.mem_cons]
        · have hci2 : ¬I = c := fun h => hci h.symm
          simp [hP, hc, hci, hci2, List.mem_cons]
    · simp [hP]

theorem schedulerRun_read (hK : K < z) (hJ : J < y) (hI : I < x)
    (ord : List ℕ) (hperm : ord.Perm (List.range x)) :
    reshaped y x (schedulerRun z y x mask fit ord) K J I =
      if mask K J I ≠ 0 then fitOutcome fit K J I else (0, 0) := by
  have hord : ∀ a ∈ ord, a < x := fun a ha =>
    List.mem_range.mp (hperm.mem_iff.mp ha)
  have hIord : I ∈ ord := hperm.mem_iff.mpr (List.mem_range.mpr hI)
  unfold reshaped schedulerRun
  rw [runSlices_read hK hJ hI ord hord zeroBuf]
  simp [hIord, zeroBuf]

end SchedulerProofs

theorem countP_flatMap {α β : Type} (p : α → Bool) (f : β → List α) :
    ∀ l : List β,
      (l.flatMap f).countP p = (l.map fun a => (f a).countP p).sum := by
  intro l
  induction l with
  | nil => simp
  | cons a l ih => simp [List.flatMap_cons, List.countP_append, ih]

theorem sum_range_single (f : ℕ → ℕ) (a0 : ℕ) :
    ∀ n : ℕ, (∀ a, a < n → a ≠ a0 → f a = 0) →
      ((List.range n).map f).sum = if a0 < n then f a0 else 0 := by
  intro n
  induction n with
  | zero => intro _; simp
  | succ n ih =>
    intro h
    rw [List.range_succ, List.map_append, List.sum_append,
      ih (fun a ha hne => h a (Nat.lt_succ_of_lt ha) hne)]
    by_cases h1 : a0 < n
    · have h2 : f n = 0 := h n (Nat.lt_succ_self n) (by omega)
      simp [h1, h2, Nat.lt_succ_of_lt h1]
    · by_cases h2 : a0 = n
      · subst h2; simp [h1, Nat.lt_succ_self]
      · have h3 : f n = 0 := h n (Nat.lt_succ_self n) (fun e => h2 e.symm)
        have h4 : ¬a0 < n + 1 := by omega
        simp [h1, h3, h4]

section TraceProofs

variable {z y x : ℕ} {mask : ℕ → ℕ → ℕ → ℤ}
variable {fit : ℕ → ℕ → ℕ → Option (ℚ × ℚ)}
variable {K J I : ℕ}

theorem countP_voxelWrites (k j i : ℕ) :
    (voxelWrites y x mask fit k j i).countP
        (fun w => w.1 == linIndex y x K J I) =
      if mask k j i ≠ 0 ∧ linIndex y x k j i = linIndex y x K J I then 1
      else 0 := by
  unfold voxelWrites
  by_cases hm : mask k j i ≠ 0
  · by_cases he : linIndex y x k j i = linIndex y x K J I <;>
      simp [hm, he, List.countP_cons]
  · simp [hm]

theorem countP_sliceTrace (hK : K < z) (hJ : J < y) (hI : I < x) {i : ℕ}
    (hi : i < x) :
    (sliceTrace z y x mask fit i).countP
        (fun w => w.1 == linIndex y x K J I) =
      if i = I ∧ mask K J I ≠ 0 then 1 else 0 := by
  have inner : ∀ j, j < y →
      ((List.range z).flatMap fun k =>
          voxelWrites y x mask fit k j i).countP
          (fun w => w.1 == linIndex y x K J I) =
        if j = J ∧ i = I ∧ mask K J I ≠ 0 then 1 else 0 := by
    intro j hj
    rw [countP_flatMap,
      sum_range_single _ K z (fun k _ hne => by
        rw [countP_voxelWrites]
        have hC : ¬(mask k j i ≠ 0 ∧
            linIndex y x k j i = linIndex y x K J I) := by
          rintro ⟨_, he⟩
          exact hne (linIndex_inj hj hi hJ hI he).1
        simp [hC]),
      if_pos hK, countP_voxelWrites]
    by_cases hji : j = J ∧ i = I
    · obtain ⟨e1, e2⟩ := hji
      simp only [e1, e2]
      by_cases hm : mask K J I ≠ 0 <;> simp [hm]
    · have hC : ¬(mask K j i ≠ 0 ∧
          linIndex y x K j i = linIndex y x K J I) := by
        rintro ⟨_, he⟩
        obtain ⟨_, e2, e3⟩ := linIndex_inj hj hi hJ hI he
        exact hji ⟨e2, e3⟩
      have hC2 : ¬(j = J ∧ i = I ∧ mask K J I ≠ 0) := by
        rintro ⟨e1, e2, _⟩
        exact hji ⟨e1, e2⟩
      simp [hC, hC2]
  unfold sliceTrace
  rw [countP_flatMap,
    sum_range_single _ J y (fun j hj hne => by rw [inner j hj]; simp [hne]),
    if_pos hJ, inner J hJ]
  simp

theorem countP_runTrace (hK : K < z) (hJ : J < y) (hI : I < x)
    (ord : List ℕ) (hperm : ord.Perm (List.range x)) :
    (runTrace z y x mask fit ord).countP
        (fun w => w.1 == linIndex y x K J I) =
      if mask K J I ≠ 0 then 1 else 0 := by
  unfold runTrace
  rw [countP_flatMap]
  have hp2 := (hperm.map fun i =>
    ((sliceTrace z y x mask fit i).countP
      (fun w => w.1 == linIndex y x K J I)))
  rw [hp2.sum_eq,
    sum_range_single _ I x (fun a ha hne => by
      rw [countP_sliceTrace hK hJ hI ha]; simp [hne]),
    if_pos hI, countP_sliceTrace hK hJ hI hI]
  simp

end TraceProofs

/-! ### Claim theorems -/

/-- C1: for a fixed volume, mask, bounds and initial guess, the output of
`CBFMapping.create_map` does not depend on the worker count: under any
serialisation `ord` of the dispatched slice tasks (any permutation of
`range x_axis`), every masked voxel `(k, j, i)` is written exactly once, at
the row-major linear index `k*(y*x) + j*x + i` of the flat shared buffer;
that index is below `z*y*x`; distinct in-range voxels have distinct
indices; and the reshaped buffer equals the one a single worker (executing
the tasks as `range x_axis`) produces. -/
theorem cbf_scheduler_worker_invariance
    (z y x : ℕ) (mask : ℕ → ℕ → ℕ → ℤ)
    (fit : ℕ → ℕ → ℕ → Option (ℚ × ℚ))
    (ord : List ℕ) (hperm : ord.Perm (List.range x))
    (k j i : ℕ) (hk : k < z) (hj : j < y) (hi : i < x) :
    (runTrace z y x mask fit ord).countP
        (fun w => w.1 == linIndex y x k j i) =
      (if mask k j i ≠ 0 then 1 else 0)
    ∧ linIndex y x k j i < z * y * x
    ∧ (∀ k2 j2 i2, k2 < z → j2 < y → i2 < x →
        linIndex y x k2 j2 i2 = linIndex y x k j i →
        k2 = k ∧ j2 = j ∧ i2 = i)
    ∧ reshaped y x (schedulerRun z y x mask fit ord) k j i =
        reshaped y x (schedulerRun z y x mask fit (List.range x)) k j i := by
  refine ⟨countP_runTrace hk hj hi ord hperm, linIndex_lt hk hj hi, ?_, ?_⟩
  · intro k2 j2 i2 _ hj2 hi2 he
    exact linIndex_inj hj2 hi2 hj hi he
  · rw [schedulerRun_read hk hj hi ord hperm,
      schedulerRun_read hk hj hi (List.range x) (List.Perm.refl _)]

/-- Witness for C1 at `z = y = x = 2`, `wMask`, `wFit`, task order
`[1, 0]`, voxel `(0, 0, 1)`. -/
theorem cbf_scheduler_worker_invariance_witness :
    (runTrace 2 2 2 wMask wFit [1, 0]).countP
        (fun w => w.1 == linIndex 2 2 0 0 1) =
      (if wMask 0 0 1 ≠ 0 then 1 else 0)
    ∧ linIndex 2 2 0 0 1 < 2 * 2 * 2
    ∧ (∀ k2 j2 i2, k2 < 2 → j2 < 2 → i2 < 2 →
        linIndex 2 2 k2 j2 i2 = linIndex 2 2 0 0 1 →
        k2 = 0 ∧ j2 = 0 ∧ i2 = 1)
    ∧ reshaped 2 2 (schedulerRun 2 2 2 wMask wFit [1, 0]) 0 0 1 =
        reshaped 2 2 (schedulerRun 2 2 2 wMask wFit (List.range 2)) 0 0 1 :=
  cbf_scheduler_worker_invariance 2 2 2 wMask wFit [1, 0] (by decide)
    0 0 1 (by decide) (by decide) (by decide)

/-- C2: at every masked voxel where the bounded least-squares solver raises
its runtime non-convergence failure (`fit = none`), the scheduler writes
the fallback sentinel `(0, 0)` at that voxel's index; every other masked
voxel still receives its own fit outcome (processing continues); and
`create_map` returns the completed buffers (`Except.ok`) — the
non-convergence is never surfaced to the caller as an exception. -/
theorem cbf_nonconvergence_fallback
    (z y x : ℕ) (mask : ℕ → ℕ → ℕ → ℤ)
    (fit : ℕ → ℕ → ℕ → Option (ℚ × ℚ))
    (ord : List ℕ) (hperm : ord.Perm (List.range x))
    (cores : PyNum) (cpuCount : ℤ) (ld pld : List ℚ)
    (hv : cbfValidate cores cpuCount ld pld = .ok ())
    (k j i : ℕ) (hk : k < z) (hj : j < y) (hi : i < x)
    (hmask : mask k j i ≠ 0) (hfail : fit k j i = none) :
    reshaped y x (schedulerRun z y x mask fit ord) k j i = (0, 0)
    ∧ (∀ k2 j2 i2, k2 < z → j2 < y → i2 < x → mask k2 j2 i2 ≠ 0 →
        reshaped y x (schedulerRun z y x mask fit ord) k2 j2 i2 =
          fitOutcome fit k2 j2 i2)
    ∧ cbfCreateMap z y x mask fit cores cpuCount ld pld =
        .ok (schedulerRun z y x mask fit (List.range x)) := by
  refine ⟨?_, ?_, ?_⟩
  · rw [schedulerRun_read hk hj hi ord hperm]
    simp [hmask, fitOutcome, hfail]
  · intro k2 j2 i2 hk2 hj2 hi2 hm2
    rw [schedulerRun_read hk2 hj2 hi2 ord hperm]
    simp [hm2]
  · simp [cbfCreateMap, hv]

/-- Witness for C2 at `z = y = x = 2`, `wMask`, `wFit`, task order
`[1, 0]`, failing masked voxel `(1, 0, 0)`. -/
theorem cbf_nonconvergence_fallback_witness :
    reshaped 2 2 (schedulerRun 2 2 2 wMask wFit [1, 0]) 1 0 0 = (0, 0)
    ∧ (∀ k2 j2 i2, k2 < 2 → j2 < 2 → i2 < 2 → wMask k2 j2 i2 ≠ 0 →
        reshaped 2 2 (schedulerRun 2 2 2 wMask wFit [1, 0]) k2 j2 i2 =
          fitOutcome wFit k2 j2 i2)
    ∧ cbfCreateMap 2 2 2 wMask wFit (PyNum.int 1) 8 [9/5] [9/5] =
        .ok (schedulerRun 2 2 2 wMask wFit (List.range 2)) :=
  cbf_nonconvergence_fallback 2 2 2 wMask wFit [1, 0] (by decide)
    (PyNum.int 1) 8 [9/5] [9/5] (by rfl)
    1 0 0 (by decide) (by decide) (by decide) (by decide) (by decide)

/-- C3: in `MultiTE_ASLMapping.create_map`, when either supplied CBF or
ATT map has mean exactly zero ("not externally supplied"), the internal
`CBFMapping.create_map` is run with this instance's brain mask and both
maps are replaced by its output, so (given the internal run produces
non-zero-mean maps) the getters afterwards return non-zero maps; when both
supplied maps have non-zero mean, no internal computation happens and the
supplied maps are used unchanged. -/
theorem multite_fixed_input_stage
    (basicRun : Img → List ℚ × List ℚ) (s : MTEState)
    (hc : npMean (basicRun s.mask).1 ≠ 0)
    (ha : npMean (basicRun s.mask).2 ≠ 0) :
    ((npMean s.cbf = 0 ∨ npMean s.att = 0) →
      mteFixedInputStage basicRun s =
        ⟨(basicRun s.mask).1, (basicRun s.mask).2, true⟩
      ∧ npMean (mteFixedInputStage basicRun s).cbf ≠ 0
      ∧ npMean (mteFixedInputStage basicRun s).att ≠ 0)
    ∧ ((npMean s.cbf ≠ 0 ∧ npMean s.att ≠ 0) →
      mteFixedInputStage basicRun s = ⟨s.cbf, s.att, false⟩) := by
  constructor
  · intro h
    have hstage : mteFixedInputStage basicRun s =
        ⟨(basicRun s.mask).1, (basicRun s.mask).2, true⟩ := by
      unfold mteFixedInputStage
      rw [if_pos h]
    rw [hstage]
    exact ⟨rfl, hc, ha⟩
  · rintro ⟨h1, h2⟩
    unfold mteFixedInputStage
    rw [if_neg]
    rintro (h | h)
    · exact h1 h
    · exact h2 h

/-- Witness for C3: zero-mean supplied CBF map triggers the internal run. -/
theorem multite_fixed_input_stage_witness :
    ((npMean ([0] : List ℚ) = 0 ∨ npMean ([5] : List ℚ) = 0) →
      mteFixedInputStage wBasicRun ⟨⟨[1], [1]⟩, [0], [5]⟩ =
        ⟨(wBasicRun ⟨[1], [1]⟩).1, (wBasicRun ⟨[1], [1]⟩).2, true⟩
      ∧ npMean (mteFixedInputStage wBasicRun ⟨⟨[1], [1]⟩, [0], [5]⟩).cbf ≠ 0
      ∧ npMean (mteFixedInputStage wBasicRun ⟨⟨[1], [1]⟩, [0], [5]⟩).att ≠ 0)
    ∧ ((npMean ([0] : List ℚ) ≠ 0 ∧ npMean ([5] : List ℚ) ≠ 0) →
      mteFixedInputStage wBasicRun ⟨⟨[1], [1]⟩, [0], [5]⟩ =
        ⟨[0], [5], false⟩) :=
  multite_fixed_input_stage wBasicRun ⟨⟨[1], [1]⟩, [0], [5]⟩
    (by norm_num [npMean, wBasicRun]) (by norm_num [npMean, wBasicRun])

/-- Length of `_adjust_image_limits` output. -/
theorem adjustImageLimits_length (map : List ℚ) (g : ℚ) :
    (adjustImageLimits map g).length = map.length := by
  simp [adjustImageLimits]

/-- C4 counterexample: with initial guess 400, the fitted value 2000 (which
is greater than `4*400 = 1600`) is replaced by 0, not by the upper clip
boundary 1600 — the claim that out-of-range values go to the nearest clip
boundary is false. -/
theorem adjust_image_limits_counterexample :
    adjustImageLimits [2000] 400 = [0] ∧ (0 : ℚ) ≠ 4 * 400 := by
  constructor
  · norm_num [adjustImageLimits]
  · norm_num

/-- C4 amended: after the multi-TE exchange fit, `_adjust_image_limits`
keeps every value inside `[0, 4*initial_guess]` unchanged and replaces
every value outside that interval (negative or above `4*initial_guess`) by
zero — the SimpleITK threshold filter's outside value — which coincides
with the lower boundary for negative values but not with the upper boundary
for large values. -/
theorem adjust_image_limits_clips_outside_to_zero
    (map : List ℚ) (g : ℚ) (i : ℕ) (hi : i < map.length) :
    ((map.get ⟨i, hi⟩ < 0 ∨ 4 * g < map.get ⟨i, hi⟩) →
      (adjustImageLimits map g).get
        ⟨i, by rw [adjustImageLimits_length]; exact hi⟩ = 0)
    ∧ (0 ≤ map.get ⟨i, hi⟩ → map.get ⟨i, hi⟩ ≤ 4 * g →
      (adjustImageLimits map g).get
        ⟨i, by rw [adjustImageLimits_length]; exact hi⟩ = map.get ⟨i, hi⟩) := by
  have hg : (adjustImageLimits map g).get
      ⟨i, by rw [adjustImageLimits_length]; exact hi⟩ =
      if map.get ⟨i, hi⟩ < 0 ∨ 4 * g < map.get ⟨i, hi⟩ then 0
      else map.get ⟨i, hi⟩ := by
    simp [adjustImageLimits]
  constructor
  · intro h
    rw [hg, if_pos h]
  · intro h1 h2
    have hC : ¬(map.get ⟨i, hi⟩ < 0 ∨ 4 * g < map.get ⟨i, hi⟩) := by
      push_neg
      exact ⟨h1, h2⟩
    rw [hg, if_neg hC]

/-- Witness for C4 (amended) on the map `[-1, 5, 2000]` with initial guess
400: the out-of-range values go to 0 and the in-range value is kept. -/
theorem adjust_image_limits_clips_witness :
    (adjustImageLimits [-1, 5, 2000] 400).get ⟨2, by decide⟩ = 0
    ∧ (adjustImageLimits [-1, 5, 2000] 400).get ⟨0, by decide⟩ = 0
    ∧ (adjustImageLimits [-1, 5, 2000] 400).get ⟨1, by decide⟩ = 5 :=
  ⟨(adjust_image_limits_clips_outside_to_zero [-1, 5, 2000] 400 2
      (by decide)).1 (by norm_num),
   (adjust_image_limits_clips_outside_to_zero [-1, 5, 2000] 400 0
      (by decide)).1 (by norm_num),
   (adjust_image_limits_clips_outside_to_zero [-1, 5, 2000] 400 1
      (by decide)).2 (by norm_num) (by norm_num)⟩

/-- C5 counterexample: with available parallelism 8, the integer worker
count 9 — greater than the available parallelism — is accepted without any
error by `MultiTE_ASLMapping.create_map`, whose worker-count path has no
validation prologue and whose pool construction only rejects counts below
1; so the claim that every such count raises a configuration error before
parallel work is dispatched is false. -/
theorem mte_oversized_cores_not_rejected :
    mteCoresPath (PyNum.int 9) = .ok () ∧ (8 : ℤ) < 9 := by
  constructor
  · norm_num [mteCoresPath, poolInit, PyNum.val, PyNum.isInt]
  · decide

/-- C5 amended: for `CBFMapping.create_map` the claim holds as stated —
negative, too-large and non-integer worker counts are rejected by the
validation prologue, the count 0 (which slips past the prologue's
`cores < 0` check) is rejected by the pool's own `processes < 1`
validation before any worker starts, and every integer count in
`[1, available_parallelism]` passes; `MultiTE_ASLMapping.create_map` has
no worker-count validation of its own, so counts below 1 are rejected by
the pool, but an integer count greater than the available parallelism is
accepted without error. -/
theorem cores_validation_with_pool_backstop
    (n : ℤ) (q : ℚ) (cpuCount : ℤ) (ld pld : List ℚ)
    (hld : ld.length ≠ 0) (hpld : pld.length ≠ 0) :
    ((n < 0 ∨ cpuCount < n) →
      cbfCoresPath (PyNum.int n) cpuCount ld pld =
        .error "Number of proecess must be at least 1 and less than maximum cores availble.")
    ∧ cbfCoresPath (PyNum.float q) cpuCount ld pld =
        .error "Number of proecess must be at least 1 and less than maximum cores availble."
    ∧ (0 ≤ cpuCount →
      cbfCoresPath (PyNum.int 0) cpuCount ld pld =
        .error "Number of processes must be at least 1")
    ∧ (1 ≤ n → n ≤ cpuCount →
      cbfCoresPath (PyNum.int n) cpuCount ld pld = .ok ())
    ∧ (n < 1 →
      mteCoresPath (PyNum.int n) =
        .error "Number of processes must be at least 1")
    ∧ (1 ≤ n → mteCoresPath (PyNum.int n) = .ok ()) := by
  refine ⟨?_, ?_, ?_, ?_, ?_, ?_⟩
  · intro h
    have hcond : (PyNum.int n).val < 0 ∨
        (cpuCount : ℚ) < (PyNum.int n).val ∨ ¬(PyNum.int n).isInt := by
      rcases h with h | h
      · exact Or.inl (by simp [PyNum.val]; exact_mod_cast h)
      · exact Or.inr (Or.inl (by simp [PyNum.val]; exact_mod_cast h))
    simp only [cbfCoresPath, cbfValidate, if_pos hcond]
    rfl
  · have hcond : (PyNum.float q).val < 0 ∨
        (cpuCount : ℚ) < (PyNum.float q).val ∨ ¬(PyNum.float q).isInt :=
      Or.inr (Or.inr (by simp [PyNum.isInt]))
    simp only [cbfCoresPath, cbfValidate, if_pos hcond]
    rfl
  · intro hcpu
    have hcond : ¬((PyNum.int 0).val < 0 ∨
        (cpuCount : ℚ) < (PyNum.int 0).val ∨ ¬(PyNum.int 0).isInt) := by
      push_neg
      refine ⟨by norm_num [PyNum.val], by simp [PyNum.val]; exact_mod_cast hcpu,
        by simp [PyNum.isInt]⟩
    have hlens : ¬(ld.length = 0 ∨ pld.length = 0) := by
      push_neg
      exact ⟨hld, hpld⟩
    simp only [cbfCoresPath, cbfValidate, if_neg hcond, if_neg hlens]
    simp [poolInit, PyNum.val]
    rfl
  · intro h1 h2
    have hcond : ¬((PyNum.int n).val < 0 ∨
        (cpuCount : ℚ) < (PyNum.int n).val ∨ ¬(PyNum.int n).isInt) := by
      push_neg
      refine ⟨by simp [PyNum.val]; exact_mod_cast (by omega : (0:ℤ) ≤ n),
        by simp [PyNum.val]; exact_mod_cast h2, by simp [PyNum.isInt]⟩
    have hlens : ¬(ld.length = 0 ∨ pld.length = 0) := by
      push_neg
      exact ⟨hld, hpld⟩
    have hpool : ¬(PyNum.int n).val < 1 := by
      simp [PyNum.val]
      exact_mod_cast h1
    simp only [cbfCoresPath, cbfValidate, if_neg hcond, if_neg hlens]
    simp [poolInit, if_neg hpool, PyNum.isInt]
    rfl
  · intro h
    have hpool : (PyNum.int n).val < 1 := by
      simp [PyNum.val]
      exact_mod_cast h
    simp [mteCoresPath, poolInit, if_pos hpool]
  · intro h
    have hpool : ¬(PyNum.int n).val < 1 := by
      simp [PyNum.val]
      exact_mod_cast h
    simp [mteCoresPath, poolInit, if_neg hpool, PyNum.isInt]

/-- Witness for C5 (amended) at available parallelism 8: count 9 is
rejected by the CBF prologue but accepted by the MultiTE path, count 0 is
rejected by the pool itself, count 4 passes. -/
theorem cores_validation_with_pool_backstop_witness :
    cbfCoresPath (PyNum.int 9) 8 [9/5] [9/5] =
      .error "Number of proecess must be at least 1 and less than maximum cores availble."
    ∧ cbfCoresPath (PyNum.int 0) 8 [9/5] [9/5] =
        .error "Number of processes must be at least 1"
    ∧ cbfCoresPath (PyNum.int 4) 8 [9/5] [9/5] = .ok ()
    ∧ mteCoresPath (PyNum.int 9) = .ok () :=
  ⟨(cores_validation_with_pool_backstop 9 0 8 [9/5] [9/5]
      (by decide) (by decide)).1 (Or.inr (by decide)),
   (cores_validation_with_pool_backstop 0 0 8 [9/5] [9/5]
      (by decide) (by decide)).2.2.1 (by decide),
   (cores_validation_with_pool_backstop 4 0 8 [9/5] [9/5]
      (by decide) (by decide)).2.2.2.1 (by decide) (by decide),
   (cores_validation_with_pool_backstop 9 0 8 [9/5] [9/5]
      (by decide) (by decide)).2.2.2.2.2 (by decide)⟩

/-- C6 counterexample: a successful `set_ld` write can break the
`len(LD) == len(PLD)` invariant — the setter validates only positivity of
the new values and does not re-validate the size match, so the claim that
every setter write re-validates the invariant is false. -/
theorem set_ld_skips_size_invariant :
    setLd ⟨[], [], none, true⟩ [2] = .ok ⟨[2], [], none, true⟩
    ∧ ([2] : List ℚ).length ≠ ([] : List ℚ).length := by
  constructor
  · norm_num [setLd, checkInputParameter]
  · decide

/-- C6 amended: the acquisition descriptor's constructor enforces
`len(LD) == len(PLD)` — construction with mismatched lengths fails with a
size-mismatch error naming both lengths, with equal lengths it succeeds —
but the setters `set_ld`/`set_pld` re-validate only strict positivity of
the new values, not the size invariant: any all-positive list is stored
regardless of the other array's length. -/
theorem asl_descriptor_validation
    (ld pld : List ℚ) (te : Option (List ℚ)) (hasM0 : Bool)
    (s : ASLState) (values : List ℚ) :
    (ld.length ≠ pld.length →
      aslDataInit (some ld) (some pld) te hasM0 =
        .error ("LD and PLD must have the same array size. LD size is "
          ++ toString ld.length ++ " and PLD size is "
          ++ toString pld.length))
    ∧ (ld.length = pld.length →
      aslDataInit (some ld) (some pld) te hasM0 =
        .ok ⟨ld, pld,
          (match te with
            | some l => if l.isEmpty then none else some l
            | none => none), hasM0⟩)
    ∧ (values.all (fun v => decide (0 < v)) →
      setLd s values = .ok { s with ld := values }
      ∧ setPld s values = .ok { s with pld := values }) := by
  refine ⟨?_, ?_, ?_⟩
  · intro h
    simp [aslDataInit, checkLdPldSizes, h]
  · intro h
    simp [aslDataInit, checkLdPldSizes, h]
  · intro h
    constructor
    · simp [setLd, checkInputParameter, h]
    · simp [setPld, checkInputParameter, h]

/-- Witness for C6 (amended) at concrete LD/PLD lists. -/
theorem asl_descriptor_validation_witness :
    aslDataInit (some [1]) (some [2, 3]) none true =
      .error ("LD and PLD must have the same array size. LD size is "
        ++ toString (1 : ℕ) ++ " and PLD size is " ++ toString (2 : ℕ))
    ∧ aslDataInit (some [1]) (some [2]) none true =
        .ok ⟨[1], [2], none, true⟩
    ∧ setLd ⟨[1], [2], none, true⟩ [3, 4] =
        .ok ⟨[3, 4], [2], none, true⟩ := by
  refine ⟨?_, ?_, ?_⟩
  · exact (asl_descriptor_validation [1] [2, 3] none true
      ⟨[], [], none, true⟩ []).1 (by decide)
  · exact (asl_descriptor_validation [1] [2] none true
      ⟨[], [], none, true⟩ []).2.1 (by decide)
  · exact ((asl_descriptor_validation [1] [2] none true
      ⟨[1], [2], none, true⟩ [3, 4]).2.2 (by norm_num)).1

/-- C7: for every mask containing the chosen label and matching the
reference shape, `set_brain_mask` succeeds (a non-binary mask only sets
the warning flag) and stores exactly `(mask == label) * label`: voxels
equal to the label keep the label value, every other voxel — including
nonzero voxels with a different value — becomes 0, so the stored volume's
only values are 0 and the label. -/
theorem set_brain_mask_binarizes
    (mask : Img) (label : ℤ) (refShape : List ℕ)
    (hlab : label ∈ mask.data) (hshape : mask.shape = refShape) :
    setBrainMask mask label refShape =
      .ok (⟨mask.shape,
        mask.data.map (fun v => if v = label then label else 0)⟩,
        decide (2 < mask.data.dedup.length))
    ∧ (∀ stored warn,
        setBrainMask mask label refShape = .ok (stored, warn) →
        (∀ idx (hidx : idx < mask.data.length)
            (hidx2 : idx < stored.data.length),
          stored.data.get ⟨idx, hidx2⟩ =
            if mask.data.get ⟨idx, hidx⟩ = label then label else 0)
        ∧ (∀ v ∈ stored.data, v = 0 ∨ v = label)
        ∧ (2 < mask.data.dedup.length → warn = true)) := by
  have hrun : setBrainMask mask label refShape =
      .ok (⟨mask.shape,
        mask.data.map (fun v => if v = label then label else 0)⟩,
        decide (2 < mask.data.dedup.length)) := by
    simp [setBrainMask, checkMaskValues, hlab, hshape]
  refine ⟨hrun, ?_⟩
  intro stored warn hok
  rw [hrun] at hok
  obtain ⟨h1, h2⟩ := Prod.mk.injEq .. ▸ (Except.ok.injEq .. ▸ hok)
  subst h1
  subst h2
  refine ⟨?_, ?_, ?_⟩
  · intro idx hidx hidx2
    simp
  · intro v hv
    simp only [List.mem_map] at hv
    obtain ⟨a, _, ha⟩ := hv
    by_cases hal : a = label
    · right
      rw [← ha]
      simp [hal]
    · left
      rw [← ha]
      simp [hal]
  · intro hdedup
    simpa using hdedup

/-- Witness for C7 on a 1x1x3 mask `[0, 7, 2]` with label 2: three
distinct values (warning, not failure), the nonzero voxel 7 is excluded. -/
theorem set_brain_mask_binarizes_witness :
    setBrainMask ⟨[1, 1, 3], [0, 7, 2]⟩ 2 [1, 1, 3] =
      .ok (⟨[1, 1, 3],
        ([0, 7, 2] : List ℤ).map (fun v => if v = 2 then 2 else 0)⟩,
        decide (2 < ([0, 7, 2] : List ℤ).dedup.length))
    ∧ (∀ stored warn,
        setBrainMask ⟨[1, 1, 3], [0, 7, 2]⟩ 2 [1, 1, 3] =
          .ok (stored, warn) →
        (∀ idx (hidx : idx < ([0, 7, 2] : List ℤ).length)
            (hidx2 : idx < stored.data.length),
          stored.data.get ⟨idx, hidx2⟩ =
            if ([0, 7, 2] : List ℤ).get ⟨idx, hidx⟩ = 2 then 2 else 0)
        ∧ (∀ v ∈ stored.data, v = 0 ∨ v = 2)
        ∧ (2 < ([0, 7, 2] : List ℤ).dedup.length → warn = true)) :=
  set_brain_mask_binarizes ⟨[1, 1, 3], [0, 7, 2]⟩ 2 [1, 1, 3]
    (by decide) rfl

/-- C8 counterexample: on a mask whose shape `[1]` differs from the
reference shape `[2]` but which also lacks the chosen label, the gate
raises the label-absence error, not the shape-mismatch error — so "fails
with a shape-mismatch error whenever the shapes differ" is false. -/
theorem mask_gate_label_precedes_shape :
    checkMaskValues ⟨[1], [0]⟩ 1 [2] =
      .error "Label value is not found in the mask provided."
    ∧ (⟨[1], [0]⟩ : Img).shape ≠ [2] := by
  constructor
  · rfl
  · decide

/-- C8 amended: the mask gate fails with the label-absence validation
error whenever the chosen label is absent (this check runs first and takes
precedence), fails with a shape-mismatch error naming both shapes whenever
the label is present and the mask shape differs from the reference shape,
and in both cases no mask is stored (`set_brain_mask` only succeeds when
the label is present and the shapes match). -/
theorem mask_gate_error_behavior
    (mask : Img) (label : ℤ) (refShape : List ℕ) :
    (label ∉ mask.data →
      setBrainMask mask label refShape =
        .error "Label value is not found in the mask provided.")
    ∧ (label ∈ mask.data → mask.shape ≠ refShape →
      setBrainMask mask label refShape =
        .error ("Image mask dimension does not match with input 3D volume. Mask shape "
          ++ toString mask.shape ++ " not equal to " ++ toString refShape))
    ∧ (∀ r, setBrainMask mask label refShape = .ok r →
        label ∈ mask.data ∧ mask.shape = refShape) := by
  refine ⟨?_, ?_, ?_⟩
  · intro h
    simp [setBrainMask, checkMaskValues, h]
  · intro h1 h2
    simp [setBrainMask, checkMaskValues, h1, h2]
  · intro r hok
    by_cases h1 : label ∈ mask.data
    · by_cases h2 : mask.shape = refShape
      · exact ⟨h1, h2⟩
      · simp [setBrainMask, checkMaskValues, h1, h2] at hok
    · simp [setBrainMask, checkMaskValues, h1] at hok

/-- Witness for C8 (amended) at concrete masks. -/
theorem mask_gate_error_behavior_witness :
    setBrainMask ⟨[2], [0, 0]⟩ 1 [2] =
      .error "Label value is not found in the mask provided."
    ∧ setBrainMask ⟨[2], [0, 1]⟩ 1 [3] =
        .error ("Image mask dimension does not match with input 3D volume. Mask shape "
          ++ toString ([2] : List ℕ) ++ " not equal to "
          ++ toString ([3] : List ℕ)) := by
  constructor
  · exact (mask_gate_error_behavior ⟨[2], [0, 0]⟩ 1 [2]).1 (by decide)
  · exact (mask_gate_error_behavior ⟨[2], [0, 1]⟩ 1 [3]).2.1
      (by decide) (by decide)

/-- C9 counterexample: for CBF and ATT maps both equal to `[1/2]` (mean
`1/2`), the legacy flat-module test `np.int8(np.mean(map)) == 0` triggers
the internal recomputation while the package test `np.mean(map) == 0` does
not — the two implementations are not equivalent. -/
theorem maps_missing_triggers_differ :
    flatMapsMissing [1/2] [1/2] = true
    ∧ pkgMapsMissing [1/2] [1/2] = false := by
  constructor
  · simp [flatMapsMissing, npMean, npInt8]
    decide
  · simp [pkgMapsMissing, npMean]

/-- C9 amended: the package test implies the flat test (a map whose mean
is exactly zero also has int8-truncated mean zero), but not conversely:
the flat version also recomputes whenever the truncated-and-wrapped mean
is zero while the exact mean is not (e.g. mean 1/2). -/
theorem pkg_missing_implies_flat_missing
    (cbf att : List ℚ) (h : pkgMapsMissing cbf att = true) :
    flatMapsMissing cbf att = true := by
  have hz : npInt8 0 = 0 := by
    simp [npInt8]
  simp only [pkgMapsMissing, Bool.or_eq_true, decide_eq_true_eq] at h
  simp only [flatMapsMissing, Bool.or_eq_true, decide_eq_true_eq]
  rcases h with h | h
  · left
    rw [h, hz]
  · right
    rw [h, hz]

/-- Witness for C9 (amended): a zero-mean CBF map triggers both tests. -/
theorem pkg_missing_implies_flat_missing_witness :
    flatMapsMissing [0] [3] = true :=
  pkg_missing_implies_flat_missing [0] [3]
    (by norm_num [pkgMapsMissing, npMean])

/-- C10: constructing `ASLData` with `te_values=[]` leaves TE as `None`
exactly as if the argument had been omitted; `get_te()` then returns
`None`, and constructing `MultiTE_ASLMapping` from such data (with an M0
image present) raises the incomplete-ASLData validation error — never an
empty-list TE configuration. -/
theorem empty_te_values_is_none
    (ld pld : List ℚ) (hlen : ld.length = pld.length) :
    aslDataInit (some ld) (some pld) (some []) true =
      aslDataInit (some ld) (some pld) none true
    ∧ (∀ s, aslDataInit (some ld) (some pld) (some []) true = .ok s →
        getTe s = none
        ∧ multiTEInit s =
          .error "ASLData is incomplete. MultiTE_ASLMapping need a list of TE values.") := by
  have hrun : aslDataInit (some ld) (some pld) (some []) true =
      .ok ⟨ld, pld, none, true⟩ := by
    simp [aslDataInit, checkLdPldSizes, hlen]
  constructor
  · rw [hrun]
    simp [aslDataInit, checkLdPldSizes, hlen]
  · intro s hok
    rw [hrun] at hok
    obtain rfl := (Except.ok.injEq .. ▸ hok)
    exact ⟨rfl, rfl⟩

/-- Witness for C10 at `ld = pld = [9/5]`. -/
theorem empty_te_values_is_none_witness :
    aslDataInit (some [9/5]) (some [9/5]) (some []) true =
      aslDataInit (some [9/5]) (some [9/5]) none true
    ∧ (∀ s, aslDataInit (some [9/5]) (some [9/5]) (some []) true = .ok s →
        getTe s = none
        ∧ multiTEInit s =
          .error "ASLData is incomplete. MultiTE_ASLMapping need a list of TE values.") :=
  empty_te_values_is_none [9/5] [9/5] rfl

end Asltk
